import Mathlib

/-!
Shallow embedding of the Results Analysis Engine (`src/analyzer.ts`) of the
jmeter-mcp-server-ts repository, together with theorems settling the frozen
claims about it.  JavaScript numbers are modelled as `ℤ` (for values produced
by `parseInt`) and `ℚ` (for derived statistics); JavaScript strings as Lean
`String` (or `List Char` where character-level reasoning is needed); the
stable `Array.prototype.sort` as `List.mergeSort` with the comparator turned
into a boolean `le` relation; insertion-ordered objects (`Record<string, T[]>`
built by pushing) as insertion-ordered association lists.
-/

set_option maxRecDepth 8000

namespace JMeterAnalyzer

/-- One parsed JTL sample record, mirroring the object literal produced by
`parseXmlResults` / `parseCsvResults` in `analyzer.ts`. -/
structure JTLResult where
  timestamp : ℤ
  elapsed : ℤ
  label : String
  responseCode : String
  responseMessage : String
  threadName : String
  dataType : String
  success : Bool
  failureMessage : Option String
  bytes : ℤ
  sentBytes : ℤ
  grpThreads : ℤ
  allThreads : ℤ
  latency : ℤ
  idleTime : ℤ
  connect : ℤ
  deriving Repr, DecidableEq

/-- `Math.max(...xs)` on a non-empty list (the sources only apply it under a
non-emptiness guard; the default is returned for `[]`). -/
def jsMax {α : Type} [LinearOrder α] (dflt : α) : List α → α
  | [] => dflt
  | x :: xs => xs.foldl max x

/-- `Math.min(...xs)` on a non-empty list (the sources only apply it under a
non-emptiness guard; the default is returned for `[]`). -/
def jsMin {α : Type} [LinearOrder α] (dflt : α) : List α → α
  | [] => dflt
  | x :: xs => xs.foldl min x

/-- `numbers.reduce((sum, n) => sum + n, 0)`. -/
def jsSum (numbers : List ℚ) : ℚ := numbers.foldl (fun sum n => sum + n) 0

/-- `private average(numbers: number[])`: 0 for the empty list, otherwise the
arithmetic mean. -/
def average (numbers : List ℚ) : ℚ :=
  if numbers.length = 0 then 0
  else jsSum numbers / numbers.length

/-- `private percentile(sortedNumbers, percentile)`: 0 for the empty list,
otherwise the element at index `Math.max(0, Math.ceil(p/100 * n) - 1)`.
(Out-of-range indexing, which JavaScript answers with `undefined`, is modelled
by the `getD` default; the claims only exercise `0 ≤ p ≤ 100`, where the
index is always in range.) -/
def percentile (sortedNumbers : List ℚ) (p : ℚ) : ℚ :=
  if sortedNumbers.length = 0 then 0
  else
    let index : ℤ := ⌈p / 100 * (sortedNumbers.length : ℚ)⌉ - 1
    sortedNumbers.getD (max 0 index).toNat 0

/-- The comparator `(a, b) => a - b` used to sort response times ascending,
as a boolean `le` for the stable `mergeSort`. -/
def ascLe (a b : ℚ) : Bool := decide (a ≤ b)

/-- The shape of the overall summary returned by `calculateMetrics`. -/
structure PerformanceMetrics where
  totalRequests : ℕ
  successfulRequests : ℕ
  failedRequests : ℕ
  errorRate : ℚ
  averageResponseTime : ℚ
  medianResponseTime : ℚ
  minResponseTime : ℚ
  maxResponseTime : ℚ
  percentile90 : ℚ
  percentile95 : ℚ
  percentile99 : ℚ
  throughput : ℚ
  receivedKBPerSec : ℚ
  sentKBPerSec : ℚ
  avgBytes : ℚ
  avgLatency : ℚ
  avgConnectTime : ℚ
  deriving Repr, DecidableEq

/-- `private getEmptyMetrics()`: the all-zero summary. -/
def getEmptyMetrics : PerformanceMetrics :=
  ⟨0, 0, 0, 0, 0, 0, 0, 0, 0, 0, 0, 0, 0, 0, 0, 0, 0⟩

/-- `calculateMetrics(results)`: the overall performance summary. -/
def calculateMetrics (results : List JTLResult) : PerformanceMetrics :=
  if results.length = 0 then getEmptyMetrics
  else
    let successfulResults := results.filter (fun r => r.success)
    let failedResults := results.filter (fun r => !r.success)
    let responseTimes := (results.map (fun r => (r.elapsed : ℚ))).mergeSort ascLe
    let totalTime : ℤ :=
      jsMax 0 (results.map (fun r => r.timestamp)) -
        jsMin 0 (results.map (fun r => r.timestamp))
    let totalTimeInSeconds : ℚ := (totalTime : ℚ) / 1000
    { totalRequests := results.length
    , successfulRequests := successfulResults.length
    , failedRequests := failedResults.length
    , errorRate := ((failedResults.length : ℚ) / (results.length : ℚ)) * 100
    , averageResponseTime := average responseTimes
    , medianResponseTime := percentile responseTimes 50
    , minResponseTime := jsMin 0 responseTimes
    , maxResponseTime := jsMax 0 responseTimes
    , percentile90 := percentile responseTimes 90
    , percentile95 := percentile responseTimes 95
    , percentile99 := percentile responseTimes 99
    , throughput := if totalTimeInSeconds > 0
        then (results.length : ℚ) / totalTimeInSeconds else 0
    , receivedKBPerSec := if totalTimeInSeconds > 0
        then jsSum (results.map (fun r => (r.bytes : ℚ))) / 1024 / totalTimeInSeconds else 0
    , sentKBPerSec := if totalTimeInSeconds > 0
        then jsSum (results.map (fun r => (r.sentBytes : ℚ))) / 1024 / totalTimeInSeconds else 0
    , avgBytes := jsSum (results.map (fun r => (r.bytes : ℚ))) / (results.length : ℚ)
    , avgLatency := average (results.map (fun r => (r.latency : ℚ)))
    , avgConnectTime := average (results.map (fun r => (r.connect : ℚ))) }

/-- The shape of one per-endpoint summary, as pushed by
`calculateEndpointMetrics`. -/
structure EndpointMetrics where
  label : String
  samples : ℕ
  average : ℚ
  median : ℚ
  min : ℚ
  max : ℚ
  percentile90 : ℚ
  percentile95 : ℚ
  percentile99 : ℚ
  errorRate : ℚ
  throughput : ℚ
  receivedKBPerSec : ℚ
  sentKBPerSec : ℚ
  deriving Repr, DecidableEq

/-- `private groupBy(array, 'label')`: the `Record<string, JTLResult[]>`
built by `reduce`, modelled as an insertion-ordered association list (string
keys of a JavaScript object enumerate in insertion order). -/
def groupByLabel (results : List JTLResult) : List (String × List JTLResult) :=
  results.foldl
    (fun groups r =>
      if groups.any (fun g => g.1 = r.label) then
        groups.map (fun g => if g.1 = r.label then (g.1, g.2 ++ [r]) else g)
      else groups ++ [(r.label, [r])])
    []

/-- The body of the `for (const [label, endpointResults] of ...)` loop of
`calculateEndpointMetrics`: the metrics object pushed for one group. -/
def endpointMetricsOf (label : String) (endpointResults : List JTLResult) :
    EndpointMetrics :=
  let responseTimes := (endpointResults.map (fun r => (r.elapsed : ℚ))).mergeSort ascLe
  let failedCount := (endpointResults.filter (fun r => !r.success)).length
  let totalTime : ℤ :=
    jsMax 0 (endpointResults.map (fun r => r.timestamp)) -
      jsMin 0 (endpointResults.map (fun r => r.timestamp))
  let totalTimeInSeconds : ℚ := (totalTime : ℚ) / 1000
  { label := label
  , samples := endpointResults.length
  , average := average responseTimes
  , median := percentile responseTimes 50
  , min := jsMin 0 responseTimes
  , max := jsMax 0 responseTimes
  , percentile90 := percentile responseTimes 90
  , percentile95 := percentile responseTimes 95
  , percentile99 := percentile responseTimes 99
  , errorRate := ((failedCount : ℚ) / (endpointResults.length : ℚ)) * 100
  , throughput := if totalTimeInSeconds > 0
      then (endpointResults.length : ℚ) / totalTimeInSeconds else 0
  , receivedKBPerSec := if totalTimeInSeconds > 0
      then jsSum (endpointResults.map (fun r => (r.bytes : ℚ))) / 1024 / totalTimeInSeconds
      else 0
  , sentKBPerSec := if totalTimeInSeconds > 0
      then jsSum (endpointResults.map (fun r => (r.sentBytes : ℚ))) / 1024 / totalTimeInSeconds
      else 0 }

/-- The comparator `(a, b) => b.average - a.average` (stable, descending by
average) as a boolean `le`. -/
def endpointLe (a b : EndpointMetrics) : Bool := decide (b.average ≤ a.average)

/-- `calculateEndpointMetrics(results)`: per-label metrics, sorted descending
by average response time with the stable `Array.prototype.sort`. -/
def calculateEndpointMetrics (results : List JTLResult) : List EndpointMetrics :=
  (((groupByLabel results).map (fun g => endpointMetricsOf g.1 g.2)).mergeSort endpointLe)

/-- The shape of one error cluster, as returned by `analyzeErrors`. -/
structure ErrorAnalysis where
  responseCode : String
  responseMessage : String
  count : ℕ
  percentage : ℚ
  affectedEndpoints : List String
  deriving Repr, DecidableEq

/-- The cluster key `` `${result.responseCode}-${result.responseMessage}` ``. -/
def errorKey (r : JTLResult) : String := r.responseCode ++ "-" ++ r.responseMessage

/-- The `errorGroups` record of `analyzeErrors`, built key by key over the
failed samples; insertion-ordered association list (every key contains `-`,
so no key is array-index-like and object enumeration is insertion order). -/
def groupByErrorKey (failedResults : List JTLResult) :
    List (String × List JTLResult) :=
  failedResults.foldl
    (fun groups r =>
      if groups.any (fun g => g.1 = errorKey r) then
        groups.map (fun g => if g.1 = errorKey r then (g.1, g.2 ++ [r]) else g)
      else groups ++ [(errorKey r, [r])])
    []

/-- `[...new Set(xs)]`: deduplication keeping first occurrences in order. -/
def jsDedup {α : Type} [DecidableEq α] (l : List α) : List α :=
  l.foldl (fun acc x => if x ∈ acc then acc else acc ++ [x]) []

/-- The placeholder record used to model `errors[0]` on the (always
non-empty) groups of `analyzeErrors`. -/
def defaultResult : JTLResult :=
  ⟨0, 0, "Unknown", "", "", "", "", true, none, 0, 0, 0, 0, 0, 0, 0⟩

/-- The comparator `(a, b) => b.count - a.count` of `analyzeErrors` as a
boolean `le`. -/
def countLe (a b : ErrorAnalysis) : Bool := decide (b.count ≤ a.count)

/-- `analyzeErrors(results)`: clusters of failed samples keyed by
`responseCode ++ "-" ++ responseMessage`, sorted descending by count. -/
def analyzeErrors (results : List JTLResult) : List ErrorAnalysis :=
  let failedResults := results.filter (fun r => !r.success)
  if failedResults.length = 0 then []
  else
    (((groupByErrorKey failedResults).map (fun g =>
      let errors := g.2
      { responseCode := (errors.headD defaultResult).responseCode
      , responseMessage := (errors.headD defaultResult).responseMessage
      , count := errors.length
      , percentage := ((errors.length : ℚ) / (results.length : ℚ)) * 100
      , affectedEndpoints := jsDedup (errors.map (fun e => e.label)) })).mergeSort countLe)

/-- The severity tiers of a `Bottleneck`. -/
inductive Severity where
  | critical
  | high
  | medium
  | low
  deriving Repr, DecidableEq

/-- The three bottleneck kinds emitted by `identifyBottlenecks`. -/
inductive BottleneckType where
  | slowEndpoint
  | highErrorRate
  | highLatency
  deriving Repr, DecidableEq

/-- One flagged bottleneck. -/
structure Bottleneck where
  type : BottleneckType
  severity : Severity
  description : String
  affectedEndpoint : String
  metric : String
  value : ℚ
  threshold : ℚ
  deriving Repr, DecidableEq

/-- The slow-endpoint entry pushed for `endpoint` when its average exceeds
2000ms. -/
def slowEndpointBottleneck (endpoint : EndpointMetrics) : Bottleneck :=
  { type := BottleneckType.slowEndpoint
  , severity := if endpoint.average > 5000 then Severity.critical
      else if endpoint.average > 3000 then Severity.high else Severity.medium
  , description := "Endpoint \"" ++ endpoint.label ++ "\" has slow response time"
  , affectedEndpoint := endpoint.label
  , metric := "Average Response Time"
  , value := endpoint.average
  , threshold := 2000 }

/-- The high-error-rate entry pushed for `endpoint` when its error rate
exceeds 5%. -/
def errorRateBottleneck (endpoint : EndpointMetrics) : Bottleneck :=
  { type := BottleneckType.highErrorRate
  , severity := if endpoint.errorRate > 20 then Severity.critical
      else if endpoint.errorRate > 10 then Severity.high else Severity.medium
  , description := "Endpoint \"" ++ endpoint.label ++ "\" has high error rate"
  , affectedEndpoint := endpoint.label
  , metric := "Error Rate"
  , value := endpoint.errorRate
  , threshold := 5 }

/-- The high-latency entry pushed for `endpoint` when its 95th percentile
exceeds 1000ms. -/
def latencyBottleneck (endpoint : EndpointMetrics) : Bottleneck :=
  { type := BottleneckType.highLatency
  , severity := if endpoint.percentile95 > 3000 then Severity.critical
      else if endpoint.percentile95 > 2000 then Severity.high else Severity.medium
  , description := "Endpoint \"" ++ endpoint.label ++ "\" has high latency at 95th percentile"
  , affectedEndpoint := endpoint.label
  , metric := "95th Percentile"
  , value := endpoint.percentile95
  , threshold := 1000 }

/-- The global entry pushed when the overall error rate exceeds 5%. -/
def globalErrorBottleneck (metrics : PerformanceMetrics) : Bottleneck :=
  { type := BottleneckType.highErrorRate
  , severity := if metrics.errorRate > 20 then Severity.critical
      else if metrics.errorRate > 10 then Severity.high else Severity.medium
  , description := "Overall error rate is high"
  , affectedEndpoint := "All endpoints"
  , metric := "Error Rate"
  , value := metrics.errorRate
  , threshold := 5 }

/-- The body of the per-endpoint loop of `identifyBottlenecks`: the up to
three entries pushed for one endpoint, in push order. -/
def endpointBottlenecks (endpoint : EndpointMetrics) : List Bottleneck :=
  (if endpoint.average > 2000 then [slowEndpointBottleneck endpoint] else []) ++
  (if endpoint.errorRate > 5 then [errorRateBottleneck endpoint] else []) ++
  (if endpoint.percentile95 > 1000 then [latencyBottleneck endpoint] else [])

/-- `severityOrder = { critical: 0, high: 1, medium: 2, low: 3 }`. -/
def severityOrder : Severity → ℕ
  | Severity.critical => 0
  | Severity.high => 1
  | Severity.medium => 2
  | Severity.low => 3

/-- The final comparator of `identifyBottlenecks` as a boolean `le`. -/
def severityLe (a b : Bottleneck) : Bool :=
  decide (severityOrder a.severity ≤ severityOrder b.severity)

/-- `identifyBottlenecks(metrics, endpointMetrics)`. -/
def identifyBottlenecks (metrics : PerformanceMetrics)
    (endpointMetrics : List EndpointMetrics) : List Bottleneck :=
  ((endpointMetrics.flatMap endpointBottlenecks) ++
    (if metrics.errorRate > 5 then [globalErrorBottleneck metrics] else [])).mergeSort
    severityLe

/-- The one advisory string pushed for a bottleneck, by its kind. -/
def bottleneckRecommendation (b : Bottleneck) : String :=
  match b.type with
  | BottleneckType.slowEndpoint =>
      "Optimize \"" ++ b.affectedEndpoint ++
        "\": Consider database query optimization, caching, or code profiling."
  | BottleneckType.highErrorRate =>
      "Investigate errors in \"" ++ b.affectedEndpoint ++
        "\": Check server logs, validate input data, and review error handling."
  | BottleneckType.highLatency =>
      "Reduce latency for \"" ++ b.affectedEndpoint ++
        "\": Review network configuration, enable compression, or use CDN."

/-- The advisory strings pushed for one error cluster (empty for response
codes outside the handled classes). -/
def errorRecommendation (error : ErrorAnalysis) : List String :=
  if error.responseCode.startsWith "5" then
    ["Server errors (" ++ error.responseCode ++
      "): Review server capacity, check for memory leaks, and monitor resource usage."]
  else if error.responseCode = "404" then
    ["404 errors found: Verify API endpoints are correctly configured and accessible."]
  else if error.responseCode = "401" ∨ error.responseCode = "403" then
    ["Authentication/Authorization errors: Check credentials, tokens, and permission configurations."]
  else []

/-- The positive fallback string. -/
def fallbackRecommendation : String :=
  "Performance looks good! Continue monitoring and consider stress testing with higher loads."

/-- The advisory list accumulated by steps 1-3 of `generateRecommendations`,
before the fallback check. -/
def preRecommendations (metrics : PerformanceMetrics)
    (bottlenecks : List Bottleneck) (errors : List ErrorAnalysis) : List String :=
  (bottlenecks.map bottleneckRecommendation) ++
  ((errors.take 3).flatMap errorRecommendation) ++
  (if metrics.errorRate > 1 ∧ metrics.errorRate ≤ 5 then
    ["Monitor error trends: Error rate is slightly elevated. Set up alerts to catch increases early."]
   else []) ++
  (if metrics.percentile95 > metrics.averageResponseTime * 2 then
    ["Inconsistent response times: Consider implementing request queuing or load balancing to stabilize performance."]
   else []) ++
  (if metrics.throughput < 10 then
    ["Low throughput detected: Consider horizontal scaling, optimizing resource usage, or increasing connection pools."]
   else [])

/-- `generateRecommendations(metrics, bottlenecks, errors)`. -/
def generateRecommendations (metrics : PerformanceMetrics)
    (bottlenecks : List Bottleneck) (errors : List ErrorAnalysis) : List String :=
  let recommendations := preRecommendations metrics bottlenecks errors
  if recommendations.length = 0 then [fallbackRecommendation] else recommendations

/-- One emitted time-series point. -/
structure TimeSeriesData where
  timestamp : ℤ
  responseTime : ℚ
  throughput : ℚ
  activeThreads : ℤ
  errorCount : ℕ
  deriving Repr, DecidableEq

/-- The point pushed for the window starting at `time` (when the window is
non-empty). -/
def tsPoint (intervalResults : List JTLResult) (intervalMs time : ℤ) :
    TimeSeriesData :=
  { timestamp := time
  , responseTime := average (intervalResults.map (fun r => (r.elapsed : ℚ)))
  , throughput := (intervalResults.length : ℚ) / ((intervalMs : ℚ) / 1000)
  , activeThreads := jsMax 0 (intervalResults.map (fun r => r.allThreads))
  , errorCount := (intervalResults.filter (fun r => !r.success)).length }

/-- The `for (let time = minTime; time <= maxTime; time += intervalMs)` loop
of `generateTimeSeriesData`, modelled with an explicit fuel parameter (the
JavaScript loop has no intrinsic termination bound when `intervalMs ≤ 0`). -/
def tsLoop (results : List JTLResult) (intervalMs maxTime : ℤ) :
    ℕ → ℤ → List TimeSeriesData
  | 0, _ => []
  | fuel + 1, time =>
    if time ≤ maxTime then
      let intervalResults := results.filter
        (fun r => decide (time ≤ r.timestamp) && decide (r.timestamp < time + intervalMs))
      (if intervalResults.length > 0 then [tsPoint intervalResults intervalMs time]
       else []) ++ tsLoop results intervalMs maxTime fuel (time + intervalMs)
    else []

/-- A fuel budget sufficient for the loop whenever `intervalMs ≥ 1`: the
cursor advances by at least 1 per iteration, so at most `span + 1` iterations
run. -/
def tsFuel (minTime maxTime : ℤ) : ℕ := (maxTime - minTime).toNat + 2

/-- `generateTimeSeriesData(results, intervalMs)`. -/
def generateTimeSeriesData (results : List JTLResult) (intervalMs : ℤ) :
    List TimeSeriesData :=
  if results.length = 0 then []
  else
    let minTime := jsMin 0 (results.map (fun r => r.timestamp))
    let maxTime := jsMax 0 (results.map (fun r => r.timestamp))
    tsLoop results intervalMs maxTime (tsFuel minTime maxTime) minTime

/-- The public entry point with its default `intervalMs = 10000`. -/
def generateTimeSeriesDataDefault (results : List JTLResult) :
    List TimeSeriesData :=
  generateTimeSeriesData results 10000

/-- Whether the cursor of the time-series loop, started at `time`, passes
`maxTime` (i.e. the JavaScript loop exits) within `fuel` iterations. -/
def tsExits (intervalMs maxTime : ℤ) : ℕ → ℤ → Bool
  | 0, _ => false
  | fuel + 1, time =>
    if time ≤ maxTime then tsExits intervalMs maxTime fuel (time + intervalMs)
    else true

/-- `String.trim` of JavaScript, on character lists: strip whitespace from
both ends. -/
def trimChars (s : List Char) : List Char :=
  (((s.dropWhile Char.isWhitespace).reverse).dropWhile Char.isWhitespace).reverse

/-- The character loop of `private parseCsvLine(line)`: `inQuotes` is the
quote-parity flag, `current` the field accumulated so far. -/
def parseCsvLineGo (inQuotes : Bool) (current : List Char) :
    List Char → List (List Char)
  | [] => [trimChars current]
  | c :: rest =>
    if c = '"' then parseCsvLineGo (!inQuotes) current rest
    else if c = ',' ∧ inQuotes = false then
      trimChars current :: parseCsvLineGo inQuotes [] rest
    else parseCsvLineGo inQuotes (current ++ [c]) rest

/-- `parseCsvLine(line)`: split a CSV line on commas outside double quotes,
trimming each field and dropping the quote characters. -/
def parseCsvLine (line : List Char) : List (List Char) :=
  parseCsvLineGo false [] line

/-!  Spec-side definitions, written from the claims rather than the source,
for refinement-style comparison. -/

/-- Spec-side count of the commas of a line that sit at even quote parity
("outside double quotes"), the positions where claim C4 says the parser
splits. -/
def commasOutsideGo (inQuotes : Bool) : List Char → ℕ
  | [] => 0
  | c :: rest =>
    if c = '"' then commasOutsideGo (!inQuotes) rest
    else if c = ',' ∧ inQuotes = false then 1 + commasOutsideGo inQuotes rest
    else commasOutsideGo inQuotes rest

/-- Spec-side count of commas outside quotes, from the start of the line. -/
def commasOutside (line : List Char) : ℕ := commasOutsideGo false line

/-- Spec-side description of the bottleneck list from claim C2: one
slow-endpoint entry per endpoint with average > 2000, then one
high-error-rate entry per endpoint with error rate > 5, then one
high-latency entry per endpoint with p95 > 1000, then the global
"All endpoints" entry exactly when the overall error rate > 5. -/
def specBottlenecks (metrics : PerformanceMetrics)
    (endpointMetrics : List EndpointMetrics) : List Bottleneck :=
  ((endpointMetrics.filter (fun e => decide (e.average > 2000))).map
      slowEndpointBottleneck) ++
  ((endpointMetrics.filter (fun e => decide (e.errorRate > 5))).map
      errorRateBottleneck) ++
  ((endpointMetrics.filter (fun e => decide (e.percentile95 > 1000))).map
      latencyBottleneck) ++
  (if metrics.errorRate > 5 then [globalErrorBottleneck metrics] else [])

/-- Spec-side cluster key on raw character lists: code, separator `-`,
message. -/
def keyJoin (code message : List Char) : List Char := code ++ '-' :: message

/-- Spec-side wall-clock span in seconds: `max(timestamp) − min(timestamp)`
over all samples, divided by 1000 (claim C6's description, which is also the
expression computed inside `calculateMetrics`). -/
def wallClockSpanSec (results : List JTLResult) : ℚ :=
  ((jsMax 0 (results.map (fun r => r.timestamp)) -
      jsMin 0 (results.map (fun r => r.timestamp)) : ℤ) : ℚ) / 1000

/-!  Concrete sample records used by witnesses, counterexamples and scenario
conjuncts. -/

/-- Successful sample at timestamp 500, elapsed 100ms, label `A`. -/
def sA : JTLResult :=
  ⟨500, 100, "A", "200", "OK", "", "", true, none, 0, 0, 0, 1, 0, 0, 0⟩

/-- Successful sample at timestamp 1700, elapsed 200ms, label `B`. -/
def sB : JTLResult :=
  ⟨1700, 200, "B", "200", "OK", "", "", true, none, 0, 0, 0, 1, 0, 0, 0⟩

/-- Failed sample, code `404`, empty message, label `A`. -/
def gA : JTLResult :=
  ⟨0, 0, "A", "404", "", "", "", false, none, 0, 0, 0, 0, 0, 0, 0⟩

/-- Failed sample, code `404`, empty message, label `B`. -/
def gB : JTLResult :=
  ⟨0, 0, "B", "404", "", "", "", false, none, 0, 0, 0, 0, 0, 0, 0⟩

/-- Failed sample with code `a-b` and message `c` (cluster key `a-b-c`). -/
def f1 : JTLResult :=
  ⟨0, 0, "A", "a-b", "c", "", "", false, none, 0, 0, 0, 0, 0, 0, 0⟩

/-- Failed sample with code `a` and message `b-c` (cluster key `a-b-c`). -/
def f2 : JTLResult :=
  ⟨0, 0, "B", "a", "b-c", "", "", false, none, 0, 0, 0, 0, 0, 0, 0⟩

/-- Successful sample with elapsed 100ms and label `A` (tie witness). -/
def t9A : JTLResult :=
  ⟨0, 100, "A", "200", "OK", "", "", true, none, 0, 0, 0, 1, 0, 0, 0⟩

/-- Successful sample with elapsed 100ms and label `B` (tie witness). -/
def t9B : JTLResult :=
  ⟨0, 100, "B", "200", "OK", "", "", true, none, 0, 0, 0, 1, 0, 0, 0⟩

/-- A healthy summary: no failures, average 500ms, p95 600ms, throughput
50 req/s (the scenario of claim C8). -/
def goodMetrics : PerformanceMetrics :=
  ⟨100, 100, 0, 0, 500, 480, 100, 900, 590, 600, 800, 50, 5, 1, 1000, 50, 10⟩

/-- An endpoint summary crossing all three bottleneck thresholds. -/
def badEndpoint : EndpointMetrics :=
  ⟨"A", 10, 6000, 5500, 100, 9000, 6500, 7000, 8500, 50, 1, 1, 1⟩

/-!  Theorems settling the claims. -/

/-- C5: `calculateMetrics` applied to the empty sample sequence returns the
all-zero `PerformanceMetrics` (every numeric field equal to 0) rather than
raising an error, and `average` of the empty sequence is 0. -/
theorem claim_C5 :
    calculateMetrics [] = getEmptyMetrics ∧
    calculateMetrics [] = ⟨0, 0, 0, 0, 0, 0, 0, 0, 0, 0, 0, 0, 0, 0, 0, 0, 0⟩ ∧
    average [] = 0 := by
  refine ⟨rfl, rfl, rfl⟩

/-- The field loop of `parseCsvLine` emits one field per comma encountered at
even quote parity, plus the final field. -/
theorem parseCsvLineGo_length (l : List Char) : ∀ (inQ : Bool) (cur : List Char),
    (parseCsvLineGo inQ cur l).length = commasOutsideGo inQ l + 1 := by
  induction l with
  | nil => intro inQ cur; simp [parseCsvLineGo, commasOutsideGo]
  | cons c rest ih =>
    intro inQ cur
    simp only [parseCsvLineGo, commasOutsideGo]
    split
    · exact ih _ _
    · split
      · simp only [List.length_cons, ih _ _]; omega
      · exact ih _ _

/-- Unfolding step of the field loop: a comma outside quotes closes the
current field. -/
theorem parseCsvLineGo_comma (cur rest : List Char) :
    parseCsvLineGo false cur (',' :: rest) =
      trimChars cur :: parseCsvLineGo false [] rest := by
  simp [parseCsvLineGo]

/-- Unfolding step of the field loop: a quote character toggles the parity
flag and is dropped. -/
theorem parseCsvLineGo_quote (inQ : Bool) (cur rest : List Char) :
    parseCsvLineGo inQ cur ('"' :: rest) = parseCsvLineGo (!inQ) cur rest := by
  simp [parseCsvLineGo]

/-- Unfolding step of the field loop: the end of the line closes the current
field. -/
theorem parseCsvLineGo_nil (inQ : Bool) (cur : List Char) :
    parseCsvLineGo inQ cur [] = [trimChars cur] := rfl

/-- A segment with no quote and no comma characters is absorbed verbatim into
the current field when scanned outside quotes. -/
theorem parseCsvLineGo_plain (s : List Char) (hs : ∀ ch ∈ s, ch ≠ '"' ∧ ch ≠ ',') :
    ∀ (cur rest : List Char),
      parseCsvLineGo false cur (s ++ rest) = parseCsvLineGo false (cur ++ s) rest := by
  induction s with
  | nil => intro cur rest; simp
  | cons c s ih =>
    intro cur rest
    have hc := hs c (List.mem_cons_self c s)
    have hrec := ih (fun ch hch => hs ch (List.mem_cons_of_mem c hch)) (cur ++ [c]) rest
    rw [show cur ++ [c] ++ s = cur ++ c :: s by simp] at hrec
    simp only [List.cons_append, parseCsvLineGo]
    rw [if_neg hc.1, if_neg (by simp [hc.2])]
    exact hrec

/-- A segment with no quote characters (commas allowed) is absorbed verbatim
into the current field when scanned inside quotes. -/
theorem parseCsvLineGo_quoted (s : List Char) (hs : ∀ ch ∈ s, ch ≠ '"') :
    ∀ (cur rest : List Char),
      parseCsvLineGo true cur (s ++ rest) = parseCsvLineGo true (cur ++ s) rest := by
  induction s with
  | nil => intro cur rest; simp
  | cons c s ih =>
    intro cur rest
    have hc := hs c (List.mem_cons_self c s)
    have hrec := ih (fun ch hch => hs ch (List.mem_cons_of_mem c hch)) (cur ++ [c]) rest
    rw [show cur ++ [c] ++ s = cur ++ c :: s by simp] at hrec
    simp only [List.cons_append, parseCsvLineGo]
    rw [if_neg hc, if_neg (by simp)]
    exact hrec

/-- C4: `parseCsvLine` never splits on a comma between double quotes: the
number of fields is always one more than the number of commas at even quote
parity, and a line of three fields whose middle field is quoted and contains
commas parses into exactly three fields, the quoted field staying whole; in
particular `a,"b,c",d` parses as the three fields `a`, `b,c`, `d`. -/
theorem claim_C4 :
    (∀ line : List Char, (parseCsvLine line).length = commasOutside line + 1) ∧
    (∀ (a f c : List Char), (∀ ch ∈ a, ch ≠ '"' ∧ ch ≠ ',') →
      (∀ ch ∈ f, ch ≠ '"') → (∀ ch ∈ c, ch ≠ '"' ∧ ch ≠ ',') →
      parseCsvLine (a ++ ',' :: '"' :: (f ++ '"' :: ',' :: c)) =
        [trimChars a, trimChars f, trimChars c]) ∧
    parseCsvLine "a,\"b,c\",d".data = ["a".data, "b,c".data, "d".data] := by
  refine ⟨fun line => parseCsvLineGo_length line false [], ?_, by with_unfolding_all decide⟩
  intro a f c ha hf hc
  unfold parseCsvLine
  rw [parseCsvLineGo_plain a ha [] (',' :: '"' :: (f ++ '"' :: ',' :: c))]
  rw [List.nil_append, parseCsvLineGo_comma, parseCsvLineGo_quote]
  rw [show (!false) = true from rfl]
  rw [parseCsvLineGo_quoted f hf [] ('"' :: ',' :: c), List.nil_append]
  rw [parseCsvLineGo_quote, show (!true) = false from rfl, parseCsvLineGo_comma]
  have hfin := parseCsvLineGo_plain c hc [] []
  rw [List.append_nil, List.nil_append] at hfin
  rw [hfin, parseCsvLineGo_nil]

/-- C4 witness: the general three-field statement applied at the concrete
line `a,"b,c",d`. -/
theorem claim_C4_witness :
    parseCsvLine ("a".data ++ ',' :: '"' :: ("b,c".data ++ '"' :: ',' :: "d".data)) =
      [trimChars "a".data, trimChars "b,c".data, trimChars "d".data] :=
  claim_C4.2.1 "a".data "b,c".data "d".data (by decide) (by decide) (by decide)

/-- On an ascending-sorted non-empty list, the element at the last index is
the `Math.max` fold of the list. -/
theorem getD_last_of_sorted : ∀ (t : List ℚ) (x : ℚ), (x :: t).Pairwise (· ≤ ·) →
    (x :: t).getD ((x :: t).length - 1) 0 = jsMax 0 (x :: t)
  | [], _, _ => rfl
  | y :: t, x, h => by
    have hxy : x ≤ y := (List.pairwise_cons.mp h).1 y (List.mem_cons_self y t)
    have ht : (y :: t).Pairwise (· ≤ ·) := (List.pairwise_cons.mp h).2
    have ih := getD_last_of_sorted t y ht
    have hgetD : (x :: y :: t).getD ((x :: y :: t).length - 1) 0 =
        (y :: t).getD ((y :: t).length - 1) 0 := by
      simp [List.getD_cons_succ]
    have hmax : jsMax 0 (x :: y :: t) = jsMax 0 (y :: t) := by
      simp only [jsMax, List.foldl_cons]
      rw [max_comm x y, max_eq_left hxy]
    rw [hgetD, hmax, ih]

/-- C1: `percentile` of the empty sequence is 0 for every `p`; on a sorted
non-empty sequence it returns the element at nearest-rank index
`ceil(p/100·n) − 1` clamped to ≥ 0 — so `percentile [10,20,30,40] 50 = 20`,
the result is always an element of the sequence for `0 ≤ p ≤ 100` (the index
never falls below 0 or out of range), and `percentile xs 100` is the maximum
of a sorted `xs`. -/
theorem claim_C1 :
    (∀ p : ℚ, percentile [] p = 0) ∧
    percentile [10, 20, 30, 40] 50 = 20 ∧
    (∀ (xs : List ℚ) (p : ℚ), xs ≠ [] → 0 ≤ p → p ≤ 100 → percentile xs p ∈ xs) ∧
    (∀ xs : List ℚ, xs ≠ [] → xs.Pairwise (· ≤ ·) →
      percentile xs 100 = jsMax 0 xs) := by
  refine ⟨fun p => rfl, by with_unfolding_all decide, ?_, ?_⟩
  · intro xs p hne h0 h100
    have hlen : xs.length ≠ 0 := by simpa using hne
    unfold percentile
    rw [if_neg hlen]
    have hceil : ⌈p / 100 * (xs.length : ℚ)⌉ ≤ (xs.length : ℤ) := by
      rw [Int.ceil_le]
      push_cast
      have hdiv : p / 100 ≤ 1 := (div_le_one (by norm_num : (0:ℚ) < 100)).mpr h100
      exact mul_le_of_le_one_left (by positivity) hdiv
    have hlt : (max 0 (⌈p / 100 * (xs.length : ℚ)⌉ - 1)).toNat < xs.length := by
      omega
    rw [List.getD_eq_getElem?_getD, List.getElem?_eq_getElem hlt]
    exact List.getElem_mem hlt
  · intro xs hne hsorted
    have hlen : xs.length ≠ 0 := by simpa using hne
    unfold percentile
    rw [if_neg hlen]
    rw [show (100 : ℚ) / 100 = 1 by norm_num, one_mul, Int.ceil_natCast]
    show xs.getD (max 0 ((xs.length : ℤ) - 1)).toNat 0 = jsMax 0 xs
    rw [show (max 0 ((xs.length : ℤ) - 1)).toNat = xs.length - 1 by omega]
    cases xs with
    | nil => exact absurd rfl hne
    | cons x t => exact getD_last_of_sorted t x hsorted

/-- C1 witness: the membership and maximum parts at concrete inputs. -/
theorem claim_C1_witness :
    percentile [10, 20, 30, 40] 95 ∈ [10, 20, 30, 40] ∧
    percentile [1, 2, 3] 100 = jsMax 0 [1, 2, 3] :=
  ⟨claim_C1.2.2.1 [10, 20, 30, 40] 95 (by simp) (by norm_num) (by norm_num),
   claim_C1.2.2.2 [1, 2, 3] (by simp) (by with_unfolding_all decide)⟩

/-- Projection of `calculateMetrics` on a non-empty input: the throughput
field is guarded by positivity of the wall-clock span. -/
theorem calculateMetrics_throughput (results : List JTLResult)
    (h : results.length ≠ 0) :
    (calculateMetrics results).throughput =
      if wallClockSpanSec results > 0
        then (results.length : ℚ) / wallClockSpanSec results else 0 := by
  unfold calculateMetrics
  rw [if_neg h]
  rfl

/-- Projection of `calculateMetrics` on a non-empty input: the received-KB
rate is guarded by positivity of the wall-clock span. -/
theorem calculateMetrics_receivedKBPerSec (results : List JTLResult)
    (h : results.length ≠ 0) :
    (calculateMetrics results).receivedKBPerSec =
      if wallClockSpanSec results > 0
        then jsSum (results.map (fun r => (r.bytes : ℚ))) / 1024 / wallClockSpanSec results
        else 0 := by
  unfold calculateMetrics
  rw [if_neg h]
  rfl

/-- Projection of `calculateMetrics` on a non-empty input: the sent-KB rate
is guarded by positivity of the wall-clock span. -/
theorem calculateMetrics_sentKBPerSec (results : List JTLResult)
    (h : results.length ≠ 0) :
    (calculateMetrics results).sentKBPerSec =
      if wallClockSpanSec results > 0
        then jsSum (results.map (fun r => (r.sentBytes : ℚ))) / 1024 / wallClockSpanSec results
        else 0 := by
  unfold calculateMetrics
  rw [if_neg h]
  rfl

/-- C6: on a non-empty sample sequence the wall-clock span is
`max(timestamp) − min(timestamp)` in seconds; whenever that span is ≤ 0 the
throughput and both bandwidth rates are 0 rather than a division fault, and
when it is positive they are `count / span` and the byte sums divided by 1024
and by the span. -/
theorem claim_C6 : ∀ results : List JTLResult, results ≠ [] →
    (wallClockSpanSec results ≤ 0 →
        (calculateMetrics results).throughput = 0 ∧
        (calculateMetrics results).receivedKBPerSec = 0 ∧
        (calculateMetrics results).sentKBPerSec = 0) ∧
    (0 < wallClockSpanSec results →
        (calculateMetrics results).throughput =
          (results.length : ℚ) / wallClockSpanSec results ∧
        (calculateMetrics results).receivedKBPerSec =
          jsSum (results.map (fun r => (r.bytes : ℚ))) / 1024 / wallClockSpanSec results ∧
        (calculateMetrics results).sentKBPerSec =
          jsSum (results.map (fun r => (r.sentBytes : ℚ))) / 1024 / wallClockSpanSec results) := by
  intro results hne
  have hlen : results.length ≠ 0 := by simpa using hne
  constructor
  · intro hspan
    refine ⟨?_, ?_, ?_⟩
    · rw [calculateMetrics_throughput results hlen, if_neg (not_lt.mpr hspan)]
    · rw [calculateMetrics_receivedKBPerSec results hlen, if_neg (not_lt.mpr hspan)]
    · rw [calculateMetrics_sentKBPerSec results hlen, if_neg (not_lt.mpr hspan)]
  · intro hspan
    refine ⟨?_, ?_, ?_⟩
    · rw [calculateMetrics_throughput results hlen, if_pos hspan]
    · rw [calculateMetrics_receivedKBPerSec results hlen, if_pos hspan]
    · rw [calculateMetrics_sentKBPerSec results hlen, if_pos hspan]

/-- C6 witness: two samples sharing one timestamp give span 0 and zero rates;
the 500/1700 pair gives a positive span and `count / span` throughput. -/
theorem claim_C6_witness :
    ((calculateMetrics [gA, gB]).throughput = 0 ∧
     (calculateMetrics [gA, gB]).receivedKBPerSec = 0 ∧
     (calculateMetrics [gA, gB]).sentKBPerSec = 0) ∧
    (calculateMetrics [sA, sB]).throughput =
      (([sA, sB].length : ℕ) : ℚ) / wallClockSpanSec [sA, sB] :=
  ⟨(claim_C6 [gA, gB] (by simp)).1 (by with_unfolding_all decide),
   ((claim_C6 [sA, sB] (by simp)).2 (by with_unfolding_all decide)).1⟩

/-- C8: `generateRecommendations` never returns an empty list; when the
per-bottleneck templates, the templates for the first three error clusters
and the three global heuristics all produce nothing, the result is exactly
the single "performance looks good" fallback string — in particular a run
with zero bottlenecks, no failures, average 500ms, p95 600ms and throughput
50 req/s yields exactly that one string. -/
theorem claim_C8 :
    (∀ (metrics : PerformanceMetrics) (bottlenecks : List Bottleneck)
        (errors : List ErrorAnalysis),
      generateRecommendations metrics bottlenecks errors ≠ [] ∧
      (preRecommendations metrics bottlenecks errors = [] →
        generateRecommendations metrics bottlenecks errors =
          [fallbackRecommendation])) ∧
    generateRecommendations goodMetrics [] [] = [fallbackRecommendation] := by
  refine ⟨fun metrics bottlenecks errors => ⟨?_, ?_⟩, ?_⟩
  · show (if (preRecommendations metrics bottlenecks errors).length = 0
        then [fallbackRecommendation]
        else preRecommendations metrics bottlenecks errors) ≠ []
    split
    · simp
    · rename_i hlen
      exact List.ne_nil_of_length_pos (Nat.pos_of_ne_zero hlen)
  · intro h
    unfold generateRecommendations
    rw [h]
    simp
  · with_unfolding_all decide

/-- C8 witness: the fallback implication applied at the healthy concrete
summary with no bottlenecks and no error clusters. -/
theorem claim_C8_witness :
    generateRecommendations goodMetrics [] [] = [fallbackRecommendation] :=
  (claim_C8.1 goodMetrics [] []).2 (by with_unfolding_all decide)

/-- The endpoint comparator is transitive. -/
theorem endpointLe_trans (a b c : EndpointMetrics) :
    endpointLe a b → endpointLe b c → endpointLe a c := by
  simp only [endpointLe, decide_eq_true_eq]
  exact fun h1 h2 => le_trans h2 h1

/-- The endpoint comparator is total. -/
theorem endpointLe_total (a b : EndpointMetrics) :
    endpointLe a b || endpointLe b a := by
  simp only [endpointLe]
  rcases le_total a.average b.average with h | h
  · simp [h]
  · simp [h]

/-- C9: `calculateEndpointMetrics` returns the per-label metrics sorted in
descending order of average response time; the unsorted pre-list's order is
preserved on comparator-nonincreasing pairs (so ties keep encounter order,
stable sort); and re-sorting the already-sorted list by the same key is the
identity (idempotence, no hidden secondary key). -/
theorem claim_C9 : ∀ results : List JTLResult,
    (calculateEndpointMetrics results).Pairwise
      (fun a b => b.average ≤ a.average) ∧
    (calculateEndpointMetrics results).mergeSort endpointLe =
      calculateEndpointMetrics results ∧
    (∀ a b : EndpointMetrics, endpointLe a b →
      [a, b].Sublist ((groupByLabel results).map (fun g => endpointMetricsOf g.1 g.2)) →
      [a, b].Sublist (calculateEndpointMetrics results)) := by
  intro results
  have hsorted := List.sorted_mergeSort endpointLe_trans endpointLe_total
      ((groupByLabel results).map (fun g => endpointMetricsOf g.1 g.2))
  refine ⟨?_, ?_, ?_⟩
  · exact hsorted.imp (fun h => of_decide_eq_true h)
  · exact List.mergeSort_of_sorted hsorted
  · intro a b hab hsub
    exact List.pair_sublist_mergeSort endpointLe_trans endpointLe_total hab hsub

/-- C9 witness: two endpoints with equal averages keep their encounter order
through the sort. -/
theorem claim_C9_witness :
    [endpointMetricsOf "A" [t9A], endpointMetricsOf "B" [t9B]].Sublist
      (calculateEndpointMetrics [t9A, t9B]) := by
  have hmap : (groupByLabel [t9A, t9B]).map (fun g => endpointMetricsOf g.1 g.2) =
      [endpointMetricsOf "A" [t9A], endpointMetricsOf "B" [t9B]] := by
    with_unfolding_all decide
  exact (claim_C9 [t9A, t9B]).2.2 _ _ (by with_unfolding_all decide)
    (by rw [hmap])

/-- A flatMap of conditional singletons is the map of the filter. -/
theorem flatMap_ite_singleton {α β : Type} (p : α → Prop) [DecidablePred p]
    (f : α → β) : ∀ l : List α,
    (l.flatMap fun e => if p e then [f e] else []) =
      (l.filter fun e => decide (p e)).map f := by
  intro l
  induction l with
  | nil => rfl
  | cons a l ih =>
    simp only [List.flatMap_cons, List.filter_cons]
    by_cases h : p a
    · simp [h, ih]
    · simp [h, ih]

/-- A flatMap of appended generators is a permutation of the appended
flatMaps. -/
theorem flatMap_append_perm {α β : Type} (f g : α → List β) : ∀ l : List α,
    (l.flatMap fun e => f e ++ g e).Perm (l.flatMap f ++ l.flatMap g) := by
  intro l
  induction l with
  | nil => simp
  | cons a l ih =>
    simp only [List.flatMap_cons]
    refine (ih.append_left (f a ++ g a)).trans ?_
    have hmid : (f a ++ (g a ++ (l.flatMap f ++ l.flatMap g))).Perm
        (f a ++ (l.flatMap f ++ (g a ++ l.flatMap g))) :=
      (List.perm_append_comm_assoc (g a) (l.flatMap f) (l.flatMap g)).append_left (f a)
    rw [List.append_assoc]
    rw [show (f a ++ l.flatMap f) ++ (g a ++ l.flatMap g) =
      f a ++ (l.flatMap f ++ (g a ++ l.flatMap g)) from by rw [List.append_assoc]]
    exact hmid

/-- The per-endpoint loop entries are, up to permutation, the three filtered
categories of claim C2. -/
theorem flatMap_endpointBottlenecks_perm (es : List EndpointMetrics) :
    (es.flatMap endpointBottlenecks).Perm
      (((es.filter (fun e => decide (e.average > 2000))).map slowEndpointBottleneck) ++
       ((es.filter (fun e => decide (e.errorRate > 5))).map errorRateBottleneck) ++
       ((es.filter (fun e => decide (e.percentile95 > 1000))).map latencyBottleneck)) := by
  refine (flatMap_append_perm
      (fun e => (if e.average > 2000 then [slowEndpointBottleneck e] else []) ++
        (if e.errorRate > 5 then [errorRateBottleneck e] else []))
      (fun e => if e.percentile95 > 1000 then [latencyBottleneck e] else []) es).trans ?_
  refine List.Perm.trans (((flatMap_append_perm
      (fun e => if e.average > 2000 then [slowEndpointBottleneck e] else [])
      (fun e => if e.errorRate > 5 then [errorRateBottleneck e] else []) es)).append_right _) ?_
  rw [flatMap_ite_singleton (fun e => e.average > 2000) slowEndpointBottleneck,
    flatMap_ite_singleton (fun e => e.errorRate > 5) errorRateBottleneck,
    flatMap_ite_singleton (fun e => e.percentile95 > 1000) latencyBottleneck]

/-- Any entry pushed by the per-endpoint loop is one of the three entry
shapes for that endpoint. -/
theorem mem_endpointBottlenecks {b : Bottleneck} {e : EndpointMetrics}
    (h : b ∈ endpointBottlenecks e) :
    b = slowEndpointBottleneck e ∨ b = errorRateBottleneck e ∨
      b = latencyBottleneck e := by
  unfold endpointBottlenecks at h
  split_ifs at h <;> simp_all <;> tauto

/-- The slow-endpoint entry is never given severity `low`. -/
theorem slowEndpointBottleneck_severity (e : EndpointMetrics) :
    (slowEndpointBottleneck e).severity ≠ Severity.low := by
  unfold slowEndpointBottleneck
  split_ifs <;> simp

/-- The high-error-rate entry is never given severity `low`. -/
theorem errorRateBottleneck_severity (e : EndpointMetrics) :
    (errorRateBottleneck e).severity ≠ Severity.low := by
  unfold errorRateBottleneck
  split_ifs <;> simp

/-- The high-latency entry is never given severity `low`. -/
theorem latencyBottleneck_severity (e : EndpointMetrics) :
    (latencyBottleneck e).severity ≠ Severity.low := by
  unfold latencyBottleneck
  split_ifs <;> simp

/-- The global error-rate entry is never given severity `low`. -/
theorem globalErrorBottleneck_severity (m : PerformanceMetrics) :
    (globalErrorBottleneck m).severity ≠ Severity.low := by
  unfold globalErrorBottleneck
  split_ifs <;> simp

/-- C2: `identifyBottlenecks` emits exactly (as a multiset) one slow-endpoint
entry per endpoint with average > 2000ms, one high-error-rate entry per
endpoint with error rate > 5%, one high-latency entry per endpoint with p95
> 1000ms, plus the "All endpoints" high-error-rate entry exactly when the
overall error rate > 5% — with the severity tiers of `specBottlenecks` (the
claim's table) and no other entries; severity `low` is never assigned. -/
theorem claim_C2 : ∀ (m : PerformanceMetrics) (es : List EndpointMetrics),
    (identifyBottlenecks m es).Perm (specBottlenecks m es) ∧
    ∀ b ∈ identifyBottlenecks m es, b.severity ≠ Severity.low := by
  intro m es
  constructor
  · unfold identifyBottlenecks specBottlenecks
    refine (List.mergeSort_perm _ _).trans ?_
    exact (flatMap_endpointBottlenecks_perm es).append_right _
  · intro b hb
    have hb2 : b ∈ (es.flatMap endpointBottlenecks) ++
        (if m.errorRate > 5 then [globalErrorBottleneck m] else []) :=
      List.mem_mergeSort.mp hb
    rcases List.mem_append.mp hb2 with h | h
    · obtain ⟨e, _, he⟩ := List.mem_flatMap.mp h
      rcases mem_endpointBottlenecks he with rfl | rfl | rfl
      · exact slowEndpointBottleneck_severity e
      · exact errorRateBottleneck_severity e
      · exact latencyBottleneck_severity e
    · split_ifs at h with hg
      · rw [List.mem_singleton.mp h]
        exact globalErrorBottleneck_severity m
      · exact absurd h (List.not_mem_nil b)

/-- C2 witness: on an endpoint crossing all three thresholds the emitted
slow-endpoint entry is not of severity `low`. -/
theorem claim_C2_witness :
    (slowEndpointBottleneck badEndpoint).severity ≠ Severity.low :=
  (claim_C2 goodMetrics [badEndpoint]).2 (slowEndpointBottleneck badEndpoint)
    (by
      simp only [identifyBottlenecks, endpointBottlenecks, List.mem_mergeSort,
        List.mem_append, List.mem_flatMap, List.mem_cons]
      refine Or.inl ⟨badEndpoint, Or.inl rfl, ?_⟩
      rw [if_pos (by norm_num [badEndpoint])]
      simp)

/-- The cluster key of a sample is its code and message joined by the `-`
separator, at the character level. -/
theorem errorKey_data (r : JTLResult) :
    (errorKey r).data = keyJoin r.responseCode.data r.responseMessage.data := by
  unfold errorKey keyJoin
  rw [String.data_append, String.data_append,
    show "-".data = ['-'] from rfl, List.append_assoc]
  rfl

/-- Keys built from separator-free codes are injective: equal joins force
equal codes and equal messages. -/
theorem keyJoin_inj_aux : ∀ (c1 c2 m1 m2 : List Char), '-' ∉ c1 → '-' ∉ c2 →
    keyJoin c1 m1 = keyJoin c2 m2 → c1 = c2 ∧ m1 = m2 := by
  intro c1
  induction c1 with
  | nil =>
    intro c2 m1 m2 _ h2 h
    cases c2 with
    | nil =>
      refine ⟨rfl, ?_⟩
      simpa [keyJoin] using h
    | cons d ds =>
      simp only [keyJoin, List.nil_append, List.cons_append, List.cons.injEq] at h
      obtain ⟨hd, -⟩ := h
      subst hd
      exact absurd (List.mem_cons_self _ _) h2
  | cons a as ih =>
    intro c2 m1 m2 h1 h2 h
    cases c2 with
    | nil =>
      simp only [keyJoin, List.nil_append, List.cons_append, List.cons.injEq] at h
      obtain ⟨hd, -⟩ := h
      subst hd
      exact absurd (List.mem_cons_self _ _) h1
    | cons d ds =>
      simp only [keyJoin, List.cons_append, List.cons.injEq] at h
      obtain ⟨hd, ht⟩ := h
      have h1t : '-' ∉ as := fun hm => h1 (List.mem_cons_of_mem a hm)
      have h2t : '-' ∉ ds := fun hm => h2 (List.mem_cons_of_mem d hm)
      obtain ⟨hc, hm⟩ := ih ds m1 m2 h1t h2t ht
      exact ⟨by rw [hd, hc], hm⟩

/-- The keys of the error groups are the first-occurrence deduplication of
the keys of the failed samples, in order. -/
theorem groupByErrorKey_keys : ∀ (l : List JTLResult)
    (acc : List (String × List JTLResult)),
    (l.foldl (fun groups r =>
        if groups.any (fun g => g.1 = errorKey r) then
          groups.map (fun g => if g.1 = errorKey r then (g.1, g.2 ++ [r]) else g)
        else groups ++ [(errorKey r, [r])]) acc).map Prod.fst =
      l.foldl (fun ks r => if errorKey r ∈ ks then ks else ks ++ [errorKey r])
        (acc.map Prod.fst) := by
  intro l
  induction l with
  | nil => intro acc; rfl
  | cons r l ih =>
    intro acc
    simp only [List.foldl_cons]
    rw [ih]
    congr 1
    by_cases h : acc.any (fun g => decide (g.1 = errorKey r))
    · have hmem : errorKey r ∈ acc.map Prod.fst := by
        obtain ⟨g, hg, he⟩ := List.any_eq_true.mp h
        exact List.mem_map.mpr ⟨g, hg, of_decide_eq_true he⟩
      rw [if_pos h, if_pos hmem, List.map_map]
      refine List.map_congr_left ?_
      intro g _
      by_cases hk : g.1 = errorKey r <;> simp [hk]
    · have hmem : errorKey r ∉ acc.map Prod.fst := by
        intro hc
        obtain ⟨g, hg, he⟩ := List.mem_map.mp hc
        exact h (List.any_eq_true.mpr ⟨g, hg, decide_eq_true he⟩)
      rw [if_neg h, if_neg hmem, List.map_append]
      rfl

/-- `analyzeErrors` produces exactly one cluster per distinct key
`code ++ "-" ++ message` among the failed samples. -/
theorem analyzeErrors_length (results : List JTLResult) :
    (analyzeErrors results).length =
      (jsDedup ((results.filter (fun r => !r.success)).map errorKey)).length := by
  unfold analyzeErrors
  by_cases h : (results.filter (fun r => !r.success)).length = 0
  · rw [if_pos h]
    rw [List.length_eq_zero.mp h]
    rfl
  · rw [if_neg h]
    have hkeys : (groupByErrorKey (results.filter (fun r => !r.success))).map Prod.fst =
        jsDedup ((results.filter (fun r => !r.success)).map errorKey) := by
      unfold groupByErrorKey jsDedup
      rw [List.foldl_map]
      exact groupByErrorKey_keys _ []
    rw [List.length_mergeSort, List.length_map, ← hkeys, List.length_map]

/-- C3 counterexample: the failures `(code "a-b", message "c")` and
`(code "a", message "b-c")` have distinct (code, message) pairs, yet their
cluster keys collide and `analyzeErrors` merges them into a single cluster —
refuting "the cluster key never collides, so they are never merged". -/
theorem claim_C3_counterexample :
    (f1.responseCode, f1.responseMessage) ≠ (f2.responseCode, f2.responseMessage) ∧
    errorKey f1 = errorKey f2 ∧
    (analyzeErrors [f1, f2]).length = 1 := by
  refine ⟨by decide, by decide, by with_unfolding_all decide⟩

/-- C3 (amended): `analyzeErrors` partitions the failed samples by the
string key `responseCode ++ "-" ++ responseMessage`: failures with identical
code and message always share a cluster (two failures with code "404" and
labels "A", "B" yield one cluster with both labels and count 2), the number
of clusters is the number of distinct keys, and keys of failures whose
response codes contain no `-` character never collide; distinct pairs can
collide only through a `-` inside the code or message. -/
theorem claim_C3 :
    (analyzeErrors [gA, gB] = [⟨"404", "", 2, 100, ["A", "B"]⟩]) ∧
    (∀ r : JTLResult, (errorKey r).data =
      keyJoin r.responseCode.data r.responseMessage.data) ∧
    (∀ results : List JTLResult, (analyzeErrors results).length =
      (jsDedup ((results.filter (fun r => !r.success)).map errorKey)).length) ∧
    (∀ c1 c2 m1 m2 : List Char, '-' ∉ c1 → '-' ∉ c2 →
      (keyJoin c1 m1 = keyJoin c2 m2 ↔ c1 = c2 ∧ m1 = m2)) := by
  refine ⟨by with_unfolding_all decide, errorKey_data, analyzeErrors_length, ?_⟩
  intro c1 c2 m1 m2 h1 h2
  constructor
  · exact keyJoin_inj_aux c1 c2 m1 m2 h1 h2
  · rintro ⟨rfl, rfl⟩
    rfl

/-- C3 witness: the separator-free key injectivity at the spec's own example
codes `4` / `40`: the keys `4-04-x` and `40-4-x` do not collide. -/
theorem claim_C3_witness :
    keyJoin "4".data "04-x".data ≠ keyJoin "40".data "4-x".data := by
  intro h
  have hcontra := (claim_C3.2.2.2 "4".data "40".data "04-x".data "4-x".data
    (by decide) (by decide)).mp h
  exact absurd hcontra.1 (by decide)

/-- Every point emitted by the time-series loop has at least one sample in
its window `[timestamp, timestamp + intervalMs)` — empty windows are
omitted. -/
theorem tsLoop_window_mem (results : List JTLResult) (intervalMs maxTime : ℤ) :
    ∀ (fuel : ℕ) (time : ℤ) (p : TimeSeriesData),
      p ∈ tsLoop results intervalMs maxTime fuel time →
      ∃ r, r ∈ results ∧ p.timestamp ≤ r.timestamp ∧
        r.timestamp < p.timestamp + intervalMs := by
  intro fuel
  induction fuel with
  | zero => intro time p hp; exact absurd hp (List.not_mem_nil p)
  | succ fuel ih =>
    intro time p hp
    simp only [tsLoop] at hp
    by_cases ht : time ≤ maxTime
    · rw [if_pos ht] at hp
      rcases List.mem_append.mp hp with hl | hr
      · by_cases hlen : (results.filter (fun r =>
            decide (time ≤ r.timestamp) && decide (r.timestamp < time + intervalMs))).length > 0
        · rw [if_pos hlen] at hl
          obtain ⟨r, hrf⟩ := List.exists_mem_of_length_pos hlen
          have hr2 := List.mem_filter.mp hrf
          obtain ⟨hb1, hb2⟩ := Bool.and_eq_true_iff.mp hr2.2
          rw [List.mem_singleton.mp hl]
          exact ⟨r, hr2.1, of_decide_eq_true hb1, of_decide_eq_true hb2⟩
        · rw [if_neg hlen] at hl
          exact absurd hl (List.not_mem_nil p)
      · exact ih (time + intervalMs) p hr
    · rw [if_neg ht] at hp
      exact absurd hp (List.not_mem_nil p)

/-- C7 (amended): the bucketer maps the empty sequence to the empty output;
every emitted point's window `[start, start + intervalMs)` contains at least
one sample (zero-sample windows are omitted); and for intervalMs = 1000 with
samples at timestamps 500 and 1700 it produces exactly two points, for the
windows `[500, 1500)` and `[1500, 2500)` (whose starts walk from
min(timestamp)), each containing one sample. -/
theorem claim_C7 :
    (∀ intervalMs : ℤ, generateTimeSeriesData [] intervalMs = []) ∧
    (∀ (results : List JTLResult) (intervalMs maxTime : ℤ) (fuel : ℕ) (time : ℤ)
        (p : TimeSeriesData), p ∈ tsLoop results intervalMs maxTime fuel time →
      ∃ r, r ∈ results ∧ p.timestamp ≤ r.timestamp ∧
        r.timestamp < p.timestamp + intervalMs) ∧
    generateTimeSeriesData [sA, sB] 1000 =
      [⟨500, 100, 1, 1, 0⟩, ⟨1500, 200, 1, 1, 0⟩] := by
  exact ⟨fun _ => rfl,
    fun rs i mT f t p => tsLoop_window_mem rs i mT f t p,
    by with_unfolding_all decide⟩

/-- C7 counterexample: on the claim's own scenario the two emitted window
starts are 500 and 1500, not 0 and 1000 — the windows are not `[0,1000)` and
`[1000,2000)` as the claim states. -/
theorem claim_C7_counterexample :
    (generateTimeSeriesData [sA, sB] 1000).map (fun p => p.timestamp) = [500, 1500] ∧
    (generateTimeSeriesData [sA, sB] 1000).map (fun p => p.timestamp) ≠ [0, 1000] := by
  exact ⟨by with_unfolding_all decide, by with_unfolding_all decide⟩

/-- C7 witness: the window-membership part applied to the first emitted point
of the concrete scenario. -/
theorem claim_C7_witness :
    ∃ r, r ∈ [sA, sB] ∧
      (⟨500, 100, 1, 1, 0⟩ : TimeSeriesData).timestamp ≤ r.timestamp ∧
      r.timestamp < (⟨500, 100, 1, 1, 0⟩ : TimeSeriesData).timestamp + 1000 :=
  claim_C7.2.1 [sA, sB] 1000 1700 (tsFuel 500 1700) 500 ⟨500, 100, 1, 1, 0⟩
    (by with_unfolding_all decide)

/-- Once the cursor is past `maxTime`, the loop returns `[]` at every
fuel. -/
theorem tsLoop_exit (results : List JTLResult) (intervalMs maxTime : ℤ) :
    ∀ (fuel : ℕ) (time : ℤ), ¬ time ≤ maxTime →
      tsLoop results intervalMs maxTime fuel time = []
  | 0, _, _ => rfl
  | fuel + 1, time, h => by
      simp only [tsLoop]
      rw [if_neg h]

/-- With a positive interval the loop's value is independent of the fuel once
the fuel exceeds the span bound: the loop terminates. -/
theorem tsLoop_fuel_irrelevant (results : List JTLResult) (intervalMs maxTime : ℤ)
    (hpos : 0 < intervalMs) :
    ∀ (f g : ℕ) (time : ℤ), (maxTime - time).toNat + 1 < f →
      (maxTime - time).toNat + 1 < g →
      tsLoop results intervalMs maxTime f time =
        tsLoop results intervalMs maxTime g time := by
  intro f
  induction f with
  | zero => intro g time hf hg; omega
  | succ f ih =>
    intro g time hf hg
    cases g with
    | zero => omega
    | succ g =>
      simp only [tsLoop]
      by_cases ht : time ≤ maxTime
      · rw [if_pos ht, if_pos ht]
        congr 1
        by_cases ht2 : time + intervalMs ≤ maxTime
        · exact ih g (time + intervalMs) (by omega) (by omega)
        · rw [tsLoop_exit results intervalMs maxTime f (time + intervalMs) ht2,
            tsLoop_exit results intervalMs maxTime g (time + intervalMs) ht2]
      · rw [if_neg ht, if_neg ht]

/-- With a positive interval the cursor passes `maxTime` within `span + 2`
iterations. -/
theorem tsExits_of_bound (intervalMs maxTime : ℤ) (hpos : 0 < intervalMs) :
    ∀ (n : ℕ) (time : ℤ), (maxTime - time).toNat + 2 ≤ n →
      tsExits intervalMs maxTime n time = true := by
  intro n
  induction n with
  | zero => intro time h; omega
  | succ n ih =>
    intro time h
    simp only [tsExits]
    by_cases ht : time ≤ maxTime
    · rw [if_pos ht]
      by_cases ht2 : time + intervalMs ≤ maxTime
      · exact ih (time + intervalMs) (by omega)
      · cases n with
        | zero => omega
        | succ n =>
          simp only [tsExits]
          rw [if_neg ht2]
    · rw [if_neg ht]

/-- With a non-positive interval and a cursor not past `maxTime`, the loop
never exits, at any fuel. -/
theorem tsExits_nonpos (intervalMs maxTime : ℤ) (hneg : intervalMs ≤ 0) :
    ∀ (f : ℕ) (time : ℤ), time ≤ maxTime →
      tsExits intervalMs maxTime f time = false := by
  intro f
  induction f with
  | zero => intro time _; rfl
  | succ f ih =>
    intro time ht
    simp only [tsExits]
    rw [if_pos ht]
    exact ih (time + intervalMs) (by omega)

/-- C10: whenever `intervalMs > 0` the time-series loop terminates — its
value is fuel-independent past the span bound and the cursor passes
`maxTime` within `span + 2` steps; the termination precondition is real,
since for `intervalMs ≤ 0` the cursor never passes `maxTime`; and the public
entry point defaults the interval to 10000 without rejecting non-positive
values. -/
theorem claim_C10 :
    (∀ (results : List JTLResult) (intervalMs maxTime : ℤ) (f g : ℕ) (time : ℤ),
      0 < intervalMs → (maxTime - time).toNat + 1 < f →
      (maxTime - time).toNat + 1 < g →
      tsLoop results intervalMs maxTime f time =
        tsLoop results intervalMs maxTime g time) ∧
    (∀ (intervalMs maxTime time : ℤ), 0 < intervalMs →
      tsExits intervalMs maxTime ((maxTime - time).toNat + 2) time = true) ∧
    (∀ (intervalMs maxTime time : ℤ), intervalMs ≤ 0 → time ≤ maxTime →
      ∀ f : ℕ, tsExits intervalMs maxTime f time = false) ∧
    (∀ results : List JTLResult,
      generateTimeSeriesDataDefault results = generateTimeSeriesData results 10000) :=
  ⟨fun rs i mT f g t hpos hf hg => tsLoop_fuel_irrelevant rs i mT hpos f g t hf hg,
   fun i mT t hpos => tsExits_of_bound i mT hpos _ t (le_refl _),
   fun i mT t hneg ht f => tsExits_nonpos i mT hneg f t ht,
   fun _ => rfl⟩

/-- C10 witness: the exit bound applied at the concrete scenario interval and
time span. -/
theorem claim_C10_witness :
    tsExits 1000 1700 (((1700 : ℤ) - 500).toNat + 2) 500 = true :=
  claim_C10.2.1 1000 1700 500 (by norm_num)

end JMeterAnalyzer
